import Mathlib

/-!
Verification of the fixed-income calculator engine (app.py): term calculation,
regressive IR and IOF tax tables, daily compounding, the investment evaluator
and the two-investment comparator. Dates are modelled as integer day ordinals,
so that the Python date subtraction (end - start).days becomes integer
subtraction. Monetary amounts and rates are modelled as real numbers; the tax
tables, whose values are exact decimals, are modelled over the rationals and
coerced where they enter real arithmetic. Python float exponentiation with a
real exponent is modelled as Real.rpow and exponentiation by the integer term
as zpow.
-/

namespace RendaFixa

/-- Product kinds offered by the calculator: CDB is taxable, LCI and LCA are
tax-exempt. Mirrors the selectbox values in app.py. -/
inductive Produto
  | CDB
  | LCI
  | LCA
  deriving DecidableEq

/-- Rate regime: Pre (pre-fixed annual rate) or Pos (percentage of the CDI
index). Mirrors the selectbox values in app.py. -/
inductive Tipo
  | Pre
  | Pos
  deriving DecidableEq

/-- Term in days between two dates, modelled as day ordinals:
(end_date - start_date).days. -/
def calcular_prazo_em_dias (start_date end_date : ℤ) : ℤ :=
  end_date - start_date

/-- Regressive IR bracket table from app.py. -/
def obter_aliquota_ir (prazo_dias : ℤ) : ℚ :=
  if prazo_dias ≤ 180 then 0.225
  else if prazo_dias ≤ 360 then 0.20
  else if prazo_dias ≤ 720 then 0.175
  else 0.15

/-- Regressive IOF table (0 to 30 days) from app.py. -/
def aliquota_iof (dias : ℤ) : ℚ :=
  if dias ≥ 30 then 0
  else (30 - (dias : ℚ)) / 30

/-- Daily-compounded gross value from app.py: the annual percentage rate is
converted to a fraction, a daily factor (1 + rate) ^ (1/365) is derived and
applied prazo_dias times. -/
noncomputable def calcular_rendimento (valor_investido taxa_anual_percent : ℝ)
    (prazo_dias : ℤ) : ℝ :=
  let taxa_anual := taxa_anual_percent / 100
  let taxa_diaria := (1 + taxa_anual) ^ ((1 : ℝ) / 365)
  valor_investido * taxa_diaria ^ prazo_dias

/-- Result record returned by calcular_investimento, one field per key of the
Python dictionary. -/
structure Resultado where
  produto : Produto
  tipo : Tipo
  taxa : ℝ
  prazo : ℤ
  valor_investido : ℝ
  valor_bruto : ℝ
  iof : ℝ
  imposto_ir : ℝ
  custodia : ℝ
  valor_liquido : ℝ
  rentabilidade : ℝ
  rentabilidade_anual : ℝ

/-- The investment evaluator from app.py. The optional Python arguments
taxa_anual, cdi and percentual_cdi with the value-or-0.0 fallback are modelled
as Option values read with getD 0, which agrees with the Python truthy
fallback on numbers. -/
noncomputable def calcular_investimento (data_inicio data_fim : ℤ)
    (produto : Produto) (tipo : Tipo) (valor_investido : ℝ)
    (taxa_anual cdi percentual_cdi : Option ℝ) (taxa_custodia : ℝ) : Resultado :=
  let prazo := calcular_prazo_em_dias data_inicio data_fim
  let taxa_efetiva :=
    match tipo with
    | Tipo.Pre => taxa_anual.getD 0
    | Tipo.Pos => percentual_cdi.getD 0 / 100 * cdi.getD 0
  let bruto := calcular_rendimento valor_investido taxa_efetiva prazo
  let rendimento := bruto - valor_investido
  let iof :=
    if produto = Produto.CDB ∧ prazo < 30 then rendimento * (aliquota_iof prazo : ℝ)
    else 0
  let imposto_ir :=
    if produto = Produto.CDB then (rendimento - iof) * (obter_aliquota_ir prazo : ℝ)
    else 0
  let custo_custodia := valor_investido * (taxa_custodia / 100) * ((prazo : ℝ) / 365)
  let liquido := bruto - imposto_ir - iof - custo_custodia
  let rent_liq_pct :=
    if valor_investido > 0 then (liquido / valor_investido - 1) * 100 else 0
  let rent_anual_pct :=
    if prazo > 0 then ((1 + rent_liq_pct / 100) ^ ((365 : ℝ) / (prazo : ℝ)) - 1) * 100
    else 0
  { produto := produto, tipo := tipo, taxa := taxa_efetiva, prazo := prazo,
    valor_investido := valor_investido, valor_bruto := bruto, iof := iof,
    imposto_ir := imposto_ir, custodia := custo_custodia,
    valor_liquido := liquido, rentabilidade := rent_liq_pct,
    rentabilidade_anual := rent_anual_pct }

/-- The comparator from app.py: Investimento 1 wins only on strictly greater
annualized yield, otherwise Investimento 2 is reported. -/
noncomputable def melhor (inv1 inv2 : Resultado) : String :=
  if inv1.rentabilidade_anual > inv2.rentabilidade_anual then "Investimento 1"
  else "Investimento 2"

/-- C1: calcular_rendimento returns exactly P * ((1 + r/100)^(1/365))^d; for
every non-negative d, calcular_rendimento P 0 d = P, and for d = 0,
calcular_rendimento P r 0 = P exactly. -/
theorem C1_calcular_rendimento_formula :
    (∀ (P r : ℝ) (d : ℤ),
        calcular_rendimento P r d = P * ((1 + r / 100) ^ ((1 : ℝ) / 365)) ^ d) ∧
    (∀ (P : ℝ) (d : ℤ), 0 ≤ d → calcular_rendimento P 0 d = P) ∧
    (∀ (P r : ℝ), calcular_rendimento P r 0 = P) := by
  refine ⟨fun P r d => rfl, fun P d _ => ?_, fun P r => ?_⟩
  · simp [calcular_rendimento]
  · simp [calcular_rendimento]

/-- Witness for C1 at concrete inputs. -/
theorem C1_witness :
    calcular_rendimento 5 0 3 = 5 ∧ calcular_rendimento 5 7 0 = 5 :=
  ⟨C1_calcular_rendimento_formula.2.1 5 3 (by decide),
   C1_calcular_rendimento_formula.2.2 5 7⟩

/-- C2: the IR lookup returns 22.5 percent for d up to 180, 20 percent for 181
to 360, 17.5 percent for 361 to 720 and 15 percent beyond 720. -/
theorem C2_obter_aliquota_ir_brackets (d : ℤ) :
    (d ≤ 180 → obter_aliquota_ir d = 0.225) ∧
    (181 ≤ d → d ≤ 360 → obter_aliquota_ir d = 0.20) ∧
    (361 ≤ d → d ≤ 720 → obter_aliquota_ir d = 0.175) ∧
    (720 < d → obter_aliquota_ir d = 0.15) := by
  unfold obter_aliquota_ir
  refine ⟨fun h => ?_, fun h1 h2 => ?_, fun h1 h2 => ?_, fun h => ?_⟩ <;>
    split_ifs <;> first | rfl | omega

/-- Witness for C2 at all six bracket boundaries. -/
theorem C2_witness :
    obter_aliquota_ir 180 = 0.225 ∧ obter_aliquota_ir 181 = 0.20 ∧
    obter_aliquota_ir 360 = 0.20 ∧ obter_aliquota_ir 361 = 0.175 ∧
    obter_aliquota_ir 720 = 0.175 ∧ obter_aliquota_ir 721 = 0.15 :=
  ⟨(C2_obter_aliquota_ir_brackets 180).1 (by decide),
   (C2_obter_aliquota_ir_brackets 181).2.1 (by decide) (by decide),
   (C2_obter_aliquota_ir_brackets 360).2.1 (by decide) (by decide),
   (C2_obter_aliquota_ir_brackets 361).2.2.1 (by decide) (by decide),
   (C2_obter_aliquota_ir_brackets 720).2.2.1 (by decide) (by decide),
   (C2_obter_aliquota_ir_brackets 721).2.2.2 (by decide)⟩

/-- C3: the IOF lookup returns (30 - d)/30 for d below 30 and 0 from 30 on. -/
theorem C3_aliquota_iof_rule (d : ℤ) :
    (d < 30 → aliquota_iof d = (30 - (d : ℚ)) / 30) ∧
    (30 ≤ d → aliquota_iof d = 0) := by
  constructor
  · intro h
    unfold aliquota_iof
    rw [if_neg (by omega)]
  · intro h
    unfold aliquota_iof
    rw [if_pos h]

/-- Witness for C3 at the boundary terms 0, 29, 30 and 31. -/
theorem C3_witness :
    aliquota_iof 0 = 1 ∧ aliquota_iof 29 = 1 / 30 ∧
    aliquota_iof 30 = 0 ∧ aliquota_iof 31 = 0 :=
  ⟨by rw [(C3_aliquota_iof_rule 0).1 (by decide)]; norm_num,
   by rw [(C3_aliquota_iof_rule 29).1 (by decide)]; norm_num,
   (C3_aliquota_iof_rule 30).2 (by decide),
   (C3_aliquota_iof_rule 31).2 (by decide)⟩

/-- C4: for every evaluation, with rendimento the gross minus the principal,
IOF is rendimento times the IOF rate exactly when the product is CDB and the
term is below 30 days and is 0 otherwise; IR is (rendimento - IOF) times the
IR rate exactly when the product is CDB and is 0 otherwise; in particular LCI
and LCA always pay 0 IOF and 0 IR. -/
theorem C4_taxes (di df : ℤ) (produto : Produto) (tipo : Tipo) (v : ℝ)
    (ta cdi pc : Option ℝ) (tc : ℝ) :
    (produto = Produto.CDB ∧ df - di < 30 →
      (calcular_investimento di df produto tipo v ta cdi pc tc).iof =
        ((calcular_investimento di df produto tipo v ta cdi pc tc).valor_bruto - v) *
          (aliquota_iof (df - di) : ℝ)) ∧
    (produto ≠ Produto.CDB ∨ 30 ≤ df - di →
      (calcular_investimento di df produto tipo v ta cdi pc tc).iof = 0) ∧
    (produto = Produto.CDB →
      (calcular_investimento di df produto tipo v ta cdi pc tc).imposto_ir =
        ((calcular_investimento di df produto tipo v ta cdi pc tc).valor_bruto - v -
            (calcular_investimento di df produto tipo v ta cdi pc tc).iof) *
          (obter_aliquota_ir (df - di) : ℝ)) ∧
    (produto ≠ Produto.CDB →
      (calcular_investimento di df produto tipo v ta cdi pc tc).iof = 0 ∧
      (calcular_investimento di df produto tipo v ta cdi pc tc).imposto_ir = 0) := by
  refine ⟨?_, ?_, ?_, ?_⟩
  · rintro ⟨h1, h2⟩
    simp [calcular_investimento, calcular_prazo_em_dias, h1, h2]
  · rintro (h | h)
    · simp [calcular_investimento, calcular_prazo_em_dias, h]
    · simp [calcular_investimento, calcular_prazo_em_dias, show ¬(df - di < 30) by omega]
  · intro h
    simp [calcular_investimento, calcular_prazo_em_dias, h]
  · intro h
    simp [calcular_investimento, calcular_prazo_em_dias, h]

/-- Witness for C4: a 10-day CDB pays IOF on its gain, a 40-day LCI pays
neither IOF nor IR. -/
theorem C4_witness :
    (calcular_investimento 0 10 Produto.CDB Tipo.Pre 1000 (some 12) none none 0).iof =
      ((calcular_investimento 0 10 Produto.CDB Tipo.Pre 1000 (some 12) none none 0).valor_bruto -
          1000) * (aliquota_iof (10 - 0) : ℝ) ∧
    (calcular_investimento 0 40 Produto.LCI Tipo.Pre 1000 (some 12) none none 0).iof = 0 ∧
    (calcular_investimento 0 40 Produto.LCI Tipo.Pre 1000 (some 12) none none 0).imposto_ir = 0 :=
  ⟨(C4_taxes 0 10 Produto.CDB Tipo.Pre 1000 (some 12) none none 0).1 ⟨rfl, by decide⟩,
   ((C4_taxes 0 40 Produto.LCI Tipo.Pre 1000 (some 12) none none 0).2.2.2 (by decide)).1,
   ((C4_taxes 0 40 Produto.LCI Tipo.Pre 1000 (some 12) none none 0).2.2.2 (by decide)).2⟩

/-- C5: the custody cost is principal times (custody rate over 100) times
(term over 365), and the net value is gross minus IR minus IOF minus custody,
exactly as computed. -/
theorem C5_custody_net (di df : ℤ) (produto : Produto) (tipo : Tipo) (v : ℝ)
    (ta cdi pc : Option ℝ) (tc : ℝ) :
    (calcular_investimento di df produto tipo v ta cdi pc tc).custodia =
      v * (tc / 100) * (((df - di : ℤ) : ℝ) / 365) ∧
    (calcular_investimento di df produto tipo v ta cdi pc tc).valor_liquido =
      (calcular_investimento di df produto tipo v ta cdi pc tc).valor_bruto -
        (calcular_investimento di df produto tipo v ta cdi pc tc).imposto_ir -
        (calcular_investimento di df produto tipo v ta cdi pc tc).iof -
        (calcular_investimento di df produto tipo v ta cdi pc tc).custodia :=
  ⟨rfl, rfl⟩

/-- C6: with positive principal and a zero-day term the evaluation returns the
principal as both gross and net with both yield percentages 0; a zero
principal yields rentabilidade 0 and a zero term yields rentabilidade_anual 0,
with no error raised. -/
theorem C6_division_guards (di df : ℤ) (produto : Produto) (tipo : Tipo) (v : ℝ)
    (ta cdi pc : Option ℝ) (tc : ℝ) :
    (0 < v → df = di →
      (calcular_investimento di df produto tipo v ta cdi pc tc).valor_bruto = v ∧
      (calcular_investimento di df produto tipo v ta cdi pc tc).valor_liquido = v ∧
      (calcular_investimento di df produto tipo v ta cdi pc tc).rentabilidade = 0 ∧
      (calcular_investimento di df produto tipo v ta cdi pc tc).rentabilidade_anual = 0) ∧
    (v = 0 → (calcular_investimento di df produto tipo v ta cdi pc tc).rentabilidade = 0) ∧
    (df = di → (calcular_investimento di df produto tipo v ta cdi pc tc).rentabilidade_anual = 0) := by
  refine ⟨?_, ?_, ?_⟩
  · intro hv hdf
    subst hdf
    simp [calcular_investimento, calcular_rendimento, calcular_prazo_em_dias, hv,
      div_self (ne_of_gt hv)]
  · intro hv
    subst hv
    simp [calcular_investimento, calcular_prazo_em_dias]
  · intro hdf
    subst hdf
    simp [calcular_investimento, calcular_prazo_em_dias]

/-- Witness for C6: a zero-day CDB with principal 1000 keeps its principal and
reports zero yields. -/
theorem C6_witness :
    (calcular_investimento 0 0 Produto.CDB Tipo.Pre 1000 (some 10) none none 0).valor_bruto = 1000 ∧
    (calcular_investimento 0 0 Produto.CDB Tipo.Pre 1000 (some 10) none none 0).valor_liquido = 1000 ∧
    (calcular_investimento 0 0 Produto.CDB Tipo.Pre 1000 (some 10) none none 0).rentabilidade = 0 ∧
    (calcular_investimento 0 0 Produto.CDB Tipo.Pre 1000 (some 10) none none 0).rentabilidade_anual = 0 :=
  (C6_division_guards 0 0 Produto.CDB Tipo.Pre 1000 (some 10) none none 0).1
    (by norm_num) rfl

/-- A fabricated result record with an 8 percent annualized yield, used to
exhibit the comparator tie-break. -/
noncomputable def resA : Resultado :=
  { produto := Produto.CDB, tipo := Tipo.Pre, taxa := 10, prazo := 365,
    valor_investido := 1000, valor_bruto := 1100, iof := 0, imposto_ir := 0,
    custodia := 0, valor_liquido := 1080, rentabilidade := 8,
    rentabilidade_anual := 8 }

/-- A second result record, also with an 8 percent annualized yield. -/
noncomputable def resB : Resultado :=
  { produto := Produto.LCI, tipo := Tipo.Pre, taxa := 8, prazo := 365,
    valor_investido := 1000, valor_bruto := 1080, iof := 0, imposto_ir := 0,
    custodia := 0, valor_liquido := 1080, rentabilidade := 8,
    rentabilidade_anual := 8 }

/-- C7: the comparator reports Investimento 1 exactly when its annualized
yield is strictly greater, and reports Investimento 2 on every tie. -/
theorem C7_melhor_comparator (inv1 inv2 : Resultado) :
    (melhor inv1 inv2 = "Investimento 1" ↔
      inv2.rentabilidade_anual < inv1.rentabilidade_anual) ∧
    (inv1.rentabilidade_anual = inv2.rentabilidade_anual →
      melhor inv1 inv2 = "Investimento 2") := by
  constructor
  · unfold melhor
    split_ifs with h
    · exact iff_of_true rfl h
    · exact iff_of_false (by decide) h
  · intro he
    unfold melhor
    rw [if_neg (by rw [he]; exact lt_irrefl _)]

/-- Witness for C7: two results tied at 8 percent make the comparator pick
Investimento 2. -/
theorem C7_witness : melhor resA resB = "Investimento 2" :=
  (C7_melhor_comparator resA resB).2 rfl

/-- C8: scaling the principal by k scales gross, rendimento, IOF, IR, custody
and net each by exactly k. -/
theorem C8_homogeneity (k : ℝ) (hk : 0 < k) (di df : ℤ) (produto : Produto)
    (tipo : Tipo) (v : ℝ) (ta cdi pc : Option ℝ) (tc : ℝ) :
    (calcular_investimento di df produto tipo (k * v) ta cdi pc tc).valor_bruto =
      k * (calcular_investimento di df produto tipo v ta cdi pc tc).valor_bruto ∧
    (calcular_investimento di df produto tipo (k * v) ta cdi pc tc).valor_bruto - k * v =
      k * ((calcular_investimento di df produto tipo v ta cdi pc tc).valor_bruto - v) ∧
    (calcular_investimento di df produto tipo (k * v) ta cdi pc tc).iof =
      k * (calcular_investimento di df produto tipo v ta cdi pc tc).iof ∧
    (calcular_investimento di df produto tipo (k * v) ta cdi pc tc).imposto_ir =
      k * (calcular_investimento di df produto tipo v ta cdi pc tc).imposto_ir ∧
    (calcular_investimento di df produto tipo (k * v) ta cdi pc tc).custodia =
      k * (calcular_investimento di df produto tipo v ta cdi pc tc).custodia ∧
    (calcular_investimento di df produto tipo (k * v) ta cdi pc tc).valor_liquido =
      k * (calcular_investimento di df produto tipo v ta cdi pc tc).valor_liquido := by
  refine ⟨?_, ?_, ?_, ?_, ?_, ?_⟩ <;>
    simp only [calcular_investimento, calcular_rendimento, calcular_prazo_em_dias] <;>
    first
    | (split_ifs <;> ring)
    | ring

/-- Witness for C8 with scale factor 2 on a 40-day CDB with custody fee. -/
theorem C8_witness :
    (calcular_investimento 0 40 Produto.CDB Tipo.Pre (2 * 1000) (some 10) none none 1).valor_liquido =
      2 * (calcular_investimento 0 40 Produto.CDB Tipo.Pre 1000 (some 10) none none 1).valor_liquido :=
  (C8_homogeneity 2 (by norm_num) 0 40 Produto.CDB Tipo.Pre 1000
    (some 10) none none 1).2.2.2.2.2

/-- C9: with non-negative principal, rate and term the compounded gross value
is at least the principal, so the raw gain is never negative. -/
theorem C9_no_loss (P r : ℝ) (d : ℤ) (hP : 0 ≤ P) (hr : 0 ≤ r) (hd : 0 ≤ d) :
    P ≤ calcular_rendimento P r d := by
  unfold calcular_rendimento
  have h1 : (1 : ℝ) ≤ 1 + r / 100 := by linarith [div_nonneg hr (by norm_num : (0:ℝ) ≤ 100)]
  have h2 : (1 : ℝ) ≤ (1 + r / 100) ^ ((1 : ℝ) / 365) :=
    Real.one_le_rpow h1 (by norm_num)
  lift d to ℕ using hd with n
  have h3 : (1 : ℝ) ≤ ((1 + r / 100) ^ ((1 : ℝ) / 365)) ^ (n : ℤ) := by
    rw [zpow_natCast]
    exact one_le_pow₀ h2
  simpa using le_mul_of_one_le_right hP h3

/-- Witness for C9: a 365-day investment of 100 at 10 percent is worth at
least 100. -/
theorem C9_witness : (100 : ℝ) ≤ calcular_rendimento 100 10 365 :=
  C9_no_loss 100 10 365 (by norm_num) (by norm_num) (by decide)

/-- C10: for a negative term d the IOF lookup still returns (30 - d)/30, a
rate strictly above 1; the evaluator accepts such a term and, for a CDB,
multiplies the raw gain by that rate, so whenever the gain is nonzero the
computed IOF is larger in magnitude than the gain itself. -/
theorem C10_negative_term_iof (d : ℤ) (hd : d < 0) :
    (aliquota_iof d = (30 - (d : ℚ)) / 30 ∧ 1 < aliquota_iof d) ∧
    (∀ (di df : ℤ) (tipo : Tipo) (v : ℝ) (ta cdi pc : Option ℝ) (tc : ℝ),
      df - di = d →
      (calcular_investimento di df Produto.CDB tipo v ta cdi pc tc).iof =
        ((calcular_investimento di df Produto.CDB tipo v ta cdi pc tc).valor_bruto - v) *
          (aliquota_iof d : ℝ) ∧
      ((calcular_investimento di df Produto.CDB tipo v ta cdi pc tc).valor_bruto - v ≠ 0 →
        |(calcular_investimento di df Produto.CDB tipo v ta cdi pc tc).valor_bruto - v| <
          |(calcular_investimento di df Produto.CDB tipo v ta cdi pc tc).iof|)) := by
  have heq : aliquota_iof d = (30 - (d : ℚ)) / 30 := by
    unfold aliquota_iof
    rw [if_neg (by omega)]
  have hgt : 1 < aliquota_iof d := by
    rw [heq, lt_div_iff₀ (by norm_num : (0 : ℚ) < 30)]
    have hdq : (d : ℚ) < 0 := by exact_mod_cast hd
    linarith
  refine ⟨⟨heq, hgt⟩, ?_⟩
  intro di df tipo v ta cdi pc tc hdd
  have hiof : (calcular_investimento di df Produto.CDB tipo v ta cdi pc tc).iof =
      ((calcular_investimento di df Produto.CDB tipo v ta cdi pc tc).valor_bruto - v) *
        (aliquota_iof d : ℝ) := by
    simp [calcular_investimento, calcular_prazo_em_dias, hdd, show d < 30 by omega]
  refine ⟨hiof, fun hne => ?_⟩
  have hgtR : (1 : ℝ) < (aliquota_iof d : ℝ) := by exact_mod_cast hgt
  rw [hiof, abs_mul, abs_of_pos (lt_trans zero_lt_one hgtR)]
  exact lt_mul_of_one_lt_right (abs_pos.mpr hne) hgtR

/-- The evaluation used as the C10 witness, a CDB held for minus 10 days, has
a strictly negative raw gain, since the daily factor exceeds 1. -/
lemma witness_rendimento_neg :
    (calcular_investimento 0 (-10) Produto.CDB Tipo.Pre 100 (some 10) none none 0).valor_bruto -
      100 < 0 := by
  have hf : (1 : ℝ) < (1 + (10 : ℝ) / 100) ^ ((1 : ℝ) / 365) :=
    Real.one_lt_rpow (by norm_num) (by norm_num)
  have h10 : (1 : ℝ) < ((1 + (10 : ℝ) / 100) ^ ((1 : ℝ) / 365)) ^ (10 : ℕ) :=
    one_lt_pow₀ hf (by norm_num)
  have hinv : (((1 + (10 : ℝ) / 100) ^ ((1 : ℝ) / 365)) ^ (10 : ℕ))⁻¹ < 1 :=
    inv_lt_one_of_one_lt₀ h10
  have hbruto :
      (calcular_investimento 0 (-10) Produto.CDB Tipo.Pre 100 (some 10) none none 0).valor_bruto =
        100 * (((1 + (10 : ℝ) / 100) ^ ((1 : ℝ) / 365)) ^ (10 : ℕ))⁻¹ := by
    show 100 * ((1 + (10 : ℝ) / 100) ^ ((1 : ℝ) / 365)) ^ (-10 - 0 : ℤ) = _
    rw [show (-10 - 0 : ℤ) = -(10 : ℕ) by norm_num, zpow_neg, zpow_natCast]
  rw [hbruto]
  linarith

/-- Witness for C10: at term minus 10 the IOF rate exceeds 1 and the computed
IOF exceeds the raw gain in magnitude. -/
theorem C10_witness :
    1 < aliquota_iof (-10) ∧
    |(calcular_investimento 0 (-10) Produto.CDB Tipo.Pre 100 (some 10) none none 0).valor_bruto -
        100| <
      |(calcular_investimento 0 (-10) Produto.CDB Tipo.Pre 100 (some 10) none none 0).iof| :=
  ⟨(C10_negative_term_iof (-10) (by decide)).1.2,
   ((C10_negative_term_iof (-10) (by decide)).2 0 (-10) Tipo.Pre 100 (some 10) none none 0
      (by decide)).2 (ne_of_lt witness_rendimento_neg)⟩

end RendaFixa
